import Mathlib

/-!
Verification of the CDC BRFSS ingestion pipeline (`src/ingest.py`): the
paginated extractor `fetch_all_brfss_data`, the validation gate
(`validate_row_count`, `validate_schema`, `validate_null_checks`,
`validate_data`), the BigQuery loader `load_to_bigquery`, and the `main`
driver.

Modelling choices, kept as close to the Python source as a shallow
embedding allows:

* The HTTP transport is modelled by the sequence of pages the remote
  source answers for offsets 0, limit, 2·limit, …; once that sequence is
  exhausted, the source answers empty pages, which is how the real API
  signals exhaustion.
* A pandas DataFrame is a column list plus a row-major grid of optional
  cell values; `none` models NaN.  `len(df)` is the number of rows,
  `df[c].isna().sum()` counts the `none` cells of column `c`.
* Python floats are modelled by exact rationals; `round(x, 2)` is
  round-half-to-even carried out on rationals.
* The BigQuery client is modelled by the outcomes of the four primitive
  calls the loader makes (existence probe, dataset creation, load job,
  read-back row count).
* Raising `ValidationError` is modelled by an `Option String` error slot;
  messages written with `logger.warning` are collected in a
  `logWarnings` list, separate from the list `validate_data` returns.
-/

namespace Ingest

/-- A record returned by the API: an association list from field name to
an optional scalar value (`none` models a null value). -/
abbrev Record := List (String × Option String)

/-- EXPECTED_COLUMNS (src/ingest.py line 35). -/
def EXPECTED_COLUMNS : List String :=
  ["year", "locationabbr", "locationdesc", "class", "topic",
   "question", "data_value", "sample_size"]

/-- MIN_ROW_COUNT (src/ingest.py line 39). -/
def MIN_ROW_COUNT : Nat := 100

/-- MAX_NULL_PERCENTAGE (src/ingest.py line 40). -/
def MAX_NULL_PERCENTAGE : ℚ := 50

/-- Python truthiness of the optional `max_records` argument: `None` and
`0` are falsy, any other count is truthy (`if max_records` on line 109). -/
def maxRecordsTruthy : Option Nat → Bool
  | none => false
  | some m => m != 0

/-- The pagination loop of `fetch_all_brfss_data` (src/ingest.py lines
101–117).  `pages` is the list of responses the source gives to the
successive requests; an exhausted source answers `[]`, so running out of
`pages` is the `if not data: break` branch.  The `offset` variable only
selects the next page and is absorbed into the `pages` sequence. -/
def fetchAllLoop (limit : Nat) (max_records : Option Nat)
    (all_data : List Record) : List (List Record) → List Record
  | [] => all_data
  | data :: rest =>
    if data.isEmpty then all_data
    else
      let all2 := all_data ++ data
      if maxRecordsTruthy max_records && decide (max_records.getD 0 ≤ all2.length) then
        all2.take (max_records.getD 0)
      else if data.length < limit then all2
      else fetchAllLoop limit max_records all2 rest

/-- fetch_all_brfss_data (src/ingest.py lines 84–120): page size fixed at
10000, empty accumulator.  The `filters` argument only shapes the HTTP
request and is absorbed into the `pages` responses. -/
def fetch_all_brfss_data (pages : List (List Record)) (max_records : Option Nat) :
    List Record :=
  fetchAllLoop 10000 max_records [] pages

/-- A pandas DataFrame: the column labels and the cell grid, row-major;
`none` is NaN. -/
structure DataFrame where
  columns : List String
  rows : List (List (Option String))
deriving DecidableEq

/-- Column labels of `pd.DataFrame(data)` for a list of records: union of
the field names in order of first appearance. -/
def dfColumns (data : List Record) : List String :=
  (data.flatMap (fun r => r.map Prod.fst)).eraseDups

/-- pd.DataFrame applied to the fetched records (src/ingest.py line 347):
each row takes the record's value for each column, NaN when the field is
absent from the record. -/
def dfOfRecords (data : List Record) : DataFrame where
  columns := dfColumns data
  rows := data.map (fun r => (dfColumns data).map (fun c => (r.lookup c).join))

/-- Outcome of one validation check: the warning lines it writes to the
log, and the message of the `ValidationError` it raises, if any. -/
structure CheckResult where
  logWarnings : List String
  error : Option String
deriving DecidableEq

/-- The message of the `ValidationError` raised by validate_row_count
(src/ingest.py lines 137–140). -/
def rowCountFailMsg (row_count : Nat) : String :=
  "Row count validation failed: " ++ toString row_count ++
    " rows (minimum required: " ++ toString MIN_ROW_COUNT ++ ")"

/-- validate_row_count (src/ingest.py lines 123–142): raises when the row
count is below MIN_ROW_COUNT, logs no warnings. -/
def validate_row_count (df : DataFrame) : CheckResult :=
  let row_count := df.rows.length
  if row_count < MIN_ROW_COUNT then ⟨[], some (rowCountFailMsg row_count)⟩
  else ⟨[], none⟩

/-- The expected columns absent from the DataFrame:
`expected_columns - actual_columns` on line 162 as a list
(`EXPECTED_COLUMNS` holds no duplicate, so filtering it is exactly the
set difference). -/
def missingColumns (df : DataFrame) : List String :=
  EXPECTED_COLUMNS.filter (fun c => !(df.columns.contains c))

/-- The logged missing-column warning (src/ingest.py lines 164–166); the
source prints `sorted(missing_columns)`. -/
def schemaMissingWarnMsg (missing : List String) : String :=
  "Some expected columns are missing: " ++
    toString (missing.mergeSort (fun a b => decide (a ≤ b)))

/-- validate_schema (src/ingest.py lines 145–172): the missing-column
finding is only written to the log; zero columns raises
`ValidationError`. -/
def validate_schema (df : DataFrame) : CheckResult :=
  let actual_columns := df.columns.dedup
  let w := if missingColumns df = [] then []
           else [schemaMissingWarnMsg (missingColumns df)]
  if actual_columns.length = 0 then
    ⟨w, some "Schema validation failed: DataFrame has no columns"⟩
  else ⟨w, none⟩

/-- `df[column].isna().sum()` (src/ingest.py line 191): the number of
rows whose cell in `column` is null; a row too short to reach the
column's position counts as null, matching the coerced grid. -/
def nullCount (df : DataFrame) (column : String) : Nat :=
  df.rows.countP (fun r => (r.getD (df.columns.indexOf column) none).isNone)

/-- `(null_count / len(df)) * 100` (src/ingest.py line 192), on exact
rationals. -/
def nullPercentage (df : DataFrame) (column : String) : ℚ :=
  ((nullCount df column : ℚ) / (df.rows.length : ℚ)) * 100

/-- Python's `round` on a rational: nearest integer, ties to even. -/
def pyRound (q : ℚ) : ℤ :=
  let f := ⌊q⌋
  if q - (f : ℚ) < 1/2 then f
  else if (1 : ℚ)/2 < q - (f : ℚ) then f + 1
  else if f % 2 = 0 then f else f + 1

/-- `round(x, 2)` on a rational. -/
def pyRound2 (q : ℚ) : ℚ := (pyRound (q * 100) : ℚ) / 100

/-- One entry of the null report built on lines 194–198. -/
structure NullReportRow where
  column : String
  null_count : Nat
  null_percentage : ℚ
deriving DecidableEq

/-- The null report of validate_null_checks (src/ingest.py lines
187–198): one entry per column, in column order, carrying the column
name, its null count and its rounded null percentage. -/
def null_report (df : DataFrame) : List NullReportRow :=
  df.columns.map (fun column =>
    ⟨column, nullCount df column, pyRound2 (nullPercentage df column)⟩)

/-- The critical-failure lines of validate_null_checks (src/ingest.py
lines 200–203): one per column whose null percentage exceeds
MAX_NULL_PERCENTAGE. -/
def critical_failures (df : DataFrame) : List String :=
  (df.columns.filter (fun column =>
      decide (MAX_NULL_PERCENTAGE < nullPercentage df column))).map
    (fun column =>
      column ++ ": " ++ toString (pyRound2 (nullPercentage df column)) ++
        "% nulls (limit: " ++ toString MAX_NULL_PERCENTAGE ++ "%)")

/-- The logged null report after
`sort_values('null_percentage', ascending=False)` (src/ingest.py line
206): rows ordered by descending rounded null percentage. -/
def sorted_null_report (df : DataFrame) : List NullReportRow :=
  (null_report df).mergeSort (fun a b => decide (b.null_percentage ≤ a.null_percentage))

/-- validate_null_checks (src/ingest.py lines 175–215): high-null columns
produce one logged warning block; the check never raises. -/
def validate_null_checks (df : DataFrame) : CheckResult :=
  if critical_failures df = [] then ⟨[], none⟩
  else ⟨["High null percentages detected:\n" ++
          String.intercalate "\n" (critical_failures df)], none⟩

/-- validate_data (src/ingest.py lines 218–249): the three checks run in
order inside try/except; the first `ValidationError` short-circuits and
its message becomes the only element of the returned list; on success the
returned list is the initial empty `warnings` list (the soft findings
were only logged). -/
def validate_data (df : DataFrame) : Bool × List String :=
  match (validate_row_count df).error with
  | some e => (false, [e])
  | none =>
    match (validate_schema df).error with
    | some e => (false, [e])
    | none =>
      match (validate_null_checks df).error with
      | some e => (false, [e])
      | none => (true, [])

/-- The BigQuery client, modelled by the outcomes of the primitive calls
the loader makes: the dataset-existence probe (`client.get_dataset`,
`ok` = dataset found, `error` = the probe raised), dataset creation, the
WRITE_TRUNCATE load job, and the read-back row count of
`client.get_table`. -/
structure BQClient where
  get_dataset : Except String Unit
  create_dataset : Except String Unit
  load_job : Except String Unit
  num_rows : Nat

/-- The namespace-ensure step of load_to_bigquery (src/ingest.py lines
286–295): probe the dataset and, on any exception from the probe, attempt
creation.  Returns whether creation was attempted, and the step's
outcome. -/
def ensureDataset (client : BQClient) : Bool × Except String Unit :=
  match client.get_dataset with
  | .ok _ => (false, .ok ())
  | .error _ => (true, client.create_dataset)

/-- load_to_bigquery (src/ingest.py lines 252–316): ensure the dataset,
run the load job, wait for it, read the table back and report its row
count.  Returns whether dataset creation was attempted, and either the
first raised error or the read-back row count. -/
def load_to_bigquery (client : BQClient) (df : DataFrame) : Bool × Except String Nat :=
  let ensure := ensureDataset client
  match ensure.2 with
  | .error e => (ensure.1, .error e)
  | .ok _ =>
    match client.load_job with
    | .error e => (ensure.1, .error e)
    | .ok _ => (ensure.1, .ok client.num_rows)

/-- The environment one pipeline run observes: the source's page
responses and the warehouse client. -/
structure Env where
  pages : List (List Record)
  client : BQClient

/-- main (src/ingest.py lines 319–388) reduced to its observable outcome:
the process exit code (0 full success, 1 any failure) and whether
load_to_bigquery was invoked.  `sys.exit(1)` on empty extraction and on
failed validation, and the top-level except-clause around the load, all
yield exit code 1. -/
def main (env : Env) : Nat × Bool :=
  let data := fetch_all_brfss_data env.pages none
  if data.isEmpty then (1, false)
  else
    let df := dfOfRecords data
    let v := validate_data df
    if !v.1 then (1, false)
    else
      match (load_to_bigquery env.client df).2 with
      | .error _ => (1, true)
      | .ok _ => (0, true)

/-! ### Extraction lemmas -/

theorem fetchAllLoop_none_acc (limit : Nat) (pages : List (List Record)) :
    ∀ acc, fetchAllLoop limit none acc pages = acc ++ fetchAllLoop limit none [] pages := by
  induction pages with
  | nil => intro acc; simp [fetchAllLoop]
  | cons data rest ih =>
    intro acc
    by_cases hd : data.isEmpty
    · simp [fetchAllLoop, hd]
    · by_cases hl : data.length < limit
      · simp [fetchAllLoop, hd, hl, maxRecordsTruthy]
      · simp only [fetchAllLoop, hd, maxRecordsTruthy, Bool.false_and, Bool.false_eq_true,
          if_false, if_neg hl, ite_false]
        rw [ih (acc ++ data), ih ([] ++ data), List.nil_append, List.append_assoc]

theorem fetchAllLoop_zero (limit : Nat) (pages : List (List Record)) :
    ∀ acc, fetchAllLoop limit (some 0) acc pages = fetchAllLoop limit none acc pages := by
  induction pages with
  | nil => intro acc; rfl
  | cons data rest ih =>
    intro acc
    by_cases hd : data.isEmpty
    · simp [fetchAllLoop, hd]
    · by_cases hl : data.length < limit
      · simp [fetchAllLoop, hd, hl, maxRecordsTruthy]
      · simp [fetchAllLoop, hd, hl, maxRecordsTruthy, ih]

theorem fetchAllLoop_none_cons (limit : Nat) (acc data : List Record)
    (rest : List (List Record)) :
    fetchAllLoop limit none acc (data :: rest) =
      if data.isEmpty then acc
      else if data.length < limit then acc ++ data
      else fetchAllLoop limit none (acc ++ data) rest := by
  simp [fetchAllLoop, maxRecordsTruthy]

theorem fetchAllLoop_some_cons (limit m : Nat) (hm : m ≠ 0) (acc data : List Record)
    (rest : List (List Record)) :
    fetchAllLoop limit (some m) acc (data :: rest) =
      if data.isEmpty then acc
      else if m ≤ (acc ++ data).length then (acc ++ data).take m
      else if data.length < limit then acc ++ data
      else fetchAllLoop limit (some m) (acc ++ data) rest := by
  simp [fetchAllLoop, maxRecordsTruthy, hm]

theorem fetchAllLoop_cap (limit m : Nat) (hm : m ≠ 0) (pages : List (List Record)) :
    ∀ acc, acc.length < m →
      fetchAllLoop limit (some m) acc pages = (fetchAllLoop limit none acc pages).take m := by
  induction pages with
  | nil =>
    intro acc hacc
    simp [fetchAllLoop, List.take_of_length_le (le_of_lt hacc)]
  | cons data rest ih =>
    intro acc hacc
    rw [fetchAllLoop_some_cons limit m hm, fetchAllLoop_none_cons]
    by_cases hd : data.isEmpty
    · simp [hd, List.take_of_length_le (le_of_lt hacc)]
    · rw [if_neg hd, if_neg hd]
      by_cases hcap : m ≤ (acc ++ data).length
      · rw [if_pos hcap]
        by_cases hl : data.length < limit
        · rw [if_pos hl]
        · rw [if_neg hl, fetchAllLoop_none_acc limit rest (acc ++ data),
            List.take_append_of_le_length hcap]
      · rw [if_neg hcap]
        by_cases hl : data.length < limit
        · rw [if_pos hl, if_pos hl]
          exact (List.take_of_length_le (le_of_lt (lt_of_not_le hcap))).symm
        · rw [if_neg hl, if_neg hl]
          exact ih (acc ++ data) (lt_of_not_le hcap)

/-- A concrete record used by concrete instantiations. -/
def exRec : Record := [("year", some "2020")]

/-- C1 (amended): for every positive maxRecords value, the extractor
returns the uncapped extraction truncated to maxRecords, so it never
returns more than maxRecords records and returns exactly maxRecords
unless the source exhausts first (the capped length is the minimum of
maxRecords and the uncapped length).  maxRecords = 0 must be excluded:
Python truthiness makes a cap of 0 behave as no cap at all. -/
theorem fetch_all_caps_records (pages : List (List Record)) (m : Nat) (hm : 1 ≤ m) :
    fetch_all_brfss_data pages (some m) = (fetch_all_brfss_data pages none).take m ∧
    (fetch_all_brfss_data pages (some m)).length =
      min m (fetch_all_brfss_data pages none).length ∧
    (fetch_all_brfss_data pages (some m)).length ≤ m := by
  have h : fetch_all_brfss_data pages (some m) = (fetch_all_brfss_data pages none).take m :=
    fetchAllLoop_cap 10000 m (by omega) pages []
      (by simp only [List.length_nil]; omega)
  refine ⟨h, ?_, ?_⟩
  · rw [h, List.length_take]
  · rw [h, List.length_take]
    exact Nat.min_le_left _ _

/-- C1 witness: the amended theorem at a two-record single-page source
with cap 1. -/
theorem fetch_all_caps_records_witness :
    (fetch_all_brfss_data [[exRec, exRec]] (some 1)).length ≤ 1 :=
  (fetch_all_caps_records [[exRec, exRec]] 1 (by decide)).2.2

/-- C1 counterexample: with maxRecords = 0 and a one-record source the
extractor returns 1 record, more than maxRecords, because `if max_records`
is false for 0 and the cap is never applied. -/
theorem fetch_all_cap_zero_cex :
    fetch_all_brfss_data [[exRec]] (some 0) = [exRec] ∧
    ¬ (fetch_all_brfss_data [[exRec]] (some 0)).length ≤ 0 := by
  constructor
  · rfl
  · decide

/-- The no-cap loop on a page sequence whose last page is short and whose
other pages are exactly full collects every page in full. -/
theorem fetchAllLoop_flatten (limit : Nat) (hlim : 0 < limit) :
    ∀ pages : List (List Record), pages ≠ [] →
      (∀ p ∈ pages.dropLast, p.length = limit) →
      (pages.getLast?.getD []).length < limit →
      fetchAllLoop limit none [] pages = pages.flatten := by
  intro pages
  induction pages with
  | nil => intro h; cases h rfl
  | cons data rest ih =>
    intro _ hfull hshort
    cases rest with
    | nil =>
      have hs : data.length < limit := by simpa using hshort
      rw [fetchAllLoop_none_cons]
      by_cases hd : data.isEmpty
      · rw [if_pos hd]
        have hnil : data = [] := List.isEmpty_iff.mp hd
        simp [hnil]
      · rw [if_neg hd, if_pos hs]
        simp
    | cons q qs =>
      have hdl : (data :: q :: qs).dropLast = data :: (q :: qs).dropLast := rfl
      have hdata : data.length = limit :=
        hfull data (by rw [hdl]; exact List.mem_cons_self _ _)
      have hd : ¬ data.isEmpty = true := by
        simp only [List.isEmpty_iff]
        intro h
        rw [h] at hdata
        simp at hdata
        omega
      rw [fetchAllLoop_none_cons, if_neg hd, if_neg (by omega : ¬ data.length < limit)]
      simp only [List.nil_append]
      rw [fetchAllLoop_none_acc limit (q :: qs) data]
      rw [ih (by simp)
          (fun p hp => hfull p (by rw [hdl]; exact List.mem_cons_of_mem _ hp))
          (by rwa [List.getLast?_cons_cons] at hshort)]
      simp

/-- C4: for every page sequence whose final page is shorter than the page
size, with no record cap set, extraction terminates (the loop is a total
function of the page sequence) with the concatenation of all pages
received, so the accumulated size is the sum of the sizes of all pages
received; at the source's fixed page size 10000 this is
fetch_all_brfss_data.  The priority order of the stop conditions (empty
page, record cap, short page) is the branch order of fetchAllLoop. -/
theorem fetch_all_sums_short_final_page (limit : Nat) (pages : List (List Record))
    (hlim : 0 < limit) (hne : pages ≠ [])
    (hfull : ∀ p ∈ pages.dropLast, p.length = limit)
    (hshort : (pages.getLast?.getD []).length < limit) :
    fetchAllLoop limit none [] pages = pages.flatten ∧
    (fetchAllLoop limit none [] pages).length = (pages.map List.length).sum ∧
    (limit = 10000 → fetch_all_brfss_data pages none = pages.flatten) := by
  have h := fetchAllLoop_flatten limit hlim pages hne hfull hshort
  refine ⟨h, ?_, ?_⟩
  · rw [h, List.length_flatten]
  · intro hl
    rw [fetch_all_brfss_data, ← hl, h]

/-- C4 witness: the theorem at page size 2 and pages of sizes 2 and 1. -/
theorem fetch_all_sums_short_final_page_witness :
    fetchAllLoop 2 none [] [[exRec, exRec], [exRec]] =
      ([[exRec, exRec], [exRec]] : List (List Record)).flatten :=
  (fetch_all_sums_short_final_page 2 [[exRec, exRec], [exRec]] (by decide) (by decide)
    (by decide) (by decide)).1

/-- C9: when the record cap argument max_records is 0, the extractor
treats it as no cap at all (the truthiness check `if max_records` is
false): extraction behaves exactly as with no cap, returning every
available record rather than an empty list. -/
theorem fetch_all_zero_cap_means_no_cap (pages : List (List Record)) :
    fetch_all_brfss_data pages (some 0) = fetch_all_brfss_data pages none :=
  fetchAllLoop_zero 10000 pages []

/-! ### Validation-gate lemmas -/

theorem validate_row_count_error_none (df : DataFrame)
    (h : MIN_ROW_COUNT ≤ df.rows.length) :
    (validate_row_count df).error = none := by
  simp [validate_row_count, Nat.not_lt.mpr h]

theorem validate_row_count_error_some (df : DataFrame)
    (h : df.rows.length < MIN_ROW_COUNT) :
    (validate_row_count df).error = some (rowCountFailMsg df.rows.length) := by
  simp [validate_row_count, h]

theorem validate_schema_error_none (df : DataFrame) (h : df.columns ≠ []) :
    (validate_schema df).error = none := by
  simp [validate_schema, List.length_eq_zero, List.dedup_eq_nil, h]

theorem validate_schema_logWarnings_eq (df : DataFrame) :
    (validate_schema df).logWarnings =
      if missingColumns df = [] then []
      else [schemaMissingWarnMsg (missingColumns df)] := by
  unfold validate_schema
  dsimp only
  split <;> split <;> rfl

theorem validate_null_checks_error_none (df : DataFrame) :
    (validate_null_checks df).error = none := by
  unfold validate_null_checks
  split <;> rfl

theorem validate_data_of_row_count_fail (df : DataFrame)
    (h : df.rows.length < MIN_ROW_COUNT) :
    validate_data df = (false, [rowCountFailMsg df.rows.length]) := by
  simp [validate_data, validate_row_count_error_some df h]

theorem validate_data_pass (df : DataFrame) (h1 : MIN_ROW_COUNT ≤ df.rows.length)
    (h2 : df.columns ≠ []) : validate_data df = (true, []) := by
  simp [validate_data, validate_row_count_error_none df h1,
    validate_schema_error_none df h2, validate_null_checks_error_none df]

/-- A concrete Dataset: 50 rows, one column. -/
def exDF3 : DataFrame := ⟨["year"], List.replicate 50 [some "x"]⟩

/-- C3: for every Dataset whose row count is below MIN_ROW_COUNT (= 100),
validate_data returns passed = false together with the row-count message,
which names the actual count and the required minimum, and the row-count
failure is a hard failure that short-circuits validation: the result is
exactly the row-count error, whatever the other checks would find. -/
theorem validate_data_low_row_count (df : DataFrame)
    (h : df.rows.length < MIN_ROW_COUNT) :
    validate_data df = (false, [rowCountFailMsg df.rows.length]) ∧
    (validate_row_count df).error = some (rowCountFailMsg df.rows.length) :=
  ⟨validate_data_of_row_count_fail df h, validate_row_count_error_some df h⟩

/-- C3 witness: the theorem at a 50-row Dataset. -/
theorem validate_data_low_row_count_witness :
    validate_data exDF3 = (false, [rowCountFailMsg exDF3.rows.length]) :=
  (validate_data_low_row_count exDF3 (by decide)).1

/-- C10: within validate_data the divisor of the null-density computation
is never zero: validate_row_count runs first and raises for any Dataset
with fewer than MIN_ROW_COUNT = 100 rows, so whenever it does not raise
the row count is at least 100 > 0, and on a zero-row Dataset
validate_data is decided by the row-count failure alone, never reaching
validate_null_checks. -/
theorem null_division_guarded (df : DataFrame) :
    ((validate_row_count df).error = none →
      MIN_ROW_COUNT ≤ df.rows.length ∧ 0 < df.rows.length) ∧
    (df.rows.length = 0 → validate_data df = (false, [rowCountFailMsg 0])) := by
  constructor
  · intro h
    by_cases hlt : df.rows.length < MIN_ROW_COUNT
    · rw [validate_row_count_error_some df hlt] at h
      cases h
    · have h100 : MIN_ROW_COUNT = 100 := rfl
      omega
  · intro h
    have := validate_data_of_row_count_fail df (by rw [h]; decide)
    rwa [h] at this

/-- C10 witness: the theorem at a 100-row Dataset whose row-count check
passes. -/
theorem null_division_guarded_witness :
    MIN_ROW_COUNT ≤ (List.replicate 100 ([some "2020"] : List (Option String))).length ∧
    0 < (List.replicate 100 ([some "2020"] : List (Option String))).length :=
  (null_division_guarded ⟨["year"], List.replicate 100 [some "2020"]⟩).1 (by decide)

/-- A concrete Dataset: 100 rows, the single column "year". -/
def exDF2 : DataFrame := ⟨["year"], List.replicate 100 [some "2020"]⟩

/-- C2 counterexample: a Dataset with 100 rows and the single column
"year" misses seven expected columns, yet validate_data returns exactly
(true, []): the returned warnings list is empty, so it does not contain a
warning listing the missing expected columns (that warning is only
logged). -/
theorem validate_warnings_not_returned_cex :
    validate_data exDF2 = (true, []) ∧ missingColumns exDF2 ≠ [] :=
  ⟨validate_data_pass exDF2 (by decide) (by decide), by decide⟩

/-- C2 (amended): for every Dataset with at least one column but missing
some expected columns, and rowCount ≥ MIN_ROW_COUNT, validate_data
returns passed = true, but its returned warnings list is empty: the
warning listing exactly the missing expected columns is only written to
the log by validate_schema, never placed in the returned list (which
carries a message only when a hard failure makes passed = false).  For
every Dataset with zero columns, validate_data returns passed = false. -/
theorem validate_schema_warns_missing (df : DataFrame)
    (h1 : MIN_ROW_COUNT ≤ df.rows.length) (h2 : df.columns ≠ []) :
    validate_data df = (true, []) ∧
    (validate_schema df).logWarnings =
      (if missingColumns df = [] then []
       else [schemaMissingWarnMsg (missingColumns df)]) ∧
    (∀ c, c ∈ missingColumns df ↔ c ∈ EXPECTED_COLUMNS ∧ c ∉ df.columns) ∧
    (∀ df2 : DataFrame, df2.columns = [] → (validate_data df2).1 = false) := by
  refine ⟨validate_data_pass df h1 h2, validate_schema_logWarnings_eq df, ?_, ?_⟩
  · intro c
    simp [missingColumns, List.mem_filter]
  · intro df2 h
    by_cases hlt : df2.rows.length < MIN_ROW_COUNT
    · rw [validate_data_of_row_count_fail df2 hlt]
    · have e1 := validate_row_count_error_none df2 (Nat.le_of_not_lt hlt)
      have e2 : (validate_schema df2).error =
          some "Schema validation failed: DataFrame has no columns" := by
        simp [validate_schema, h]
      simp [validate_data, e1, e2]

/-- C2 witness: the amended theorem at the 100-row one-column Dataset. -/
theorem validate_schema_warns_missing_witness :
    validate_data exDF2 = (true, []) ∧
    ("locationabbr" ∈ missingColumns exDF2 ↔
      "locationabbr" ∈ EXPECTED_COLUMNS ∧ "locationabbr" ∉ exDF2.columns) :=
  ⟨(validate_schema_warns_missing exDF2 (by decide) (by decide)).1,
   (validate_schema_warns_missing exDF2 (by decide) (by decide)).2.2.1 "locationabbr"⟩

/-! ### Driver lemmas -/

theorem main_empty (env : Env) (h : fetch_all_brfss_data env.pages none = []) :
    main env = (1, false) := by
  unfold main
  simp [h]

theorem main_invalid (env : Env)
    (hne : fetch_all_brfss_data env.pages none ≠ [])
    (hv : (validate_data (dfOfRecords (fetch_all_brfss_data env.pages none))).1 = false) :
    main env = (1, false) := by
  unfold main
  have hie : (fetch_all_brfss_data env.pages none).isEmpty = false := by
    simpa [List.isEmpty_iff] using hne
  simp [hie, hv]

theorem main_load_invoked (env : Env)
    (hne : fetch_all_brfss_data env.pages none ≠ [])
    (hv : (validate_data (dfOfRecords (fetch_all_brfss_data env.pages none))).1 = true) :
    (main env).2 = true ∧
    ((main env).1 = 0 ↔ ∃ n, (load_to_bigquery env.client
        (dfOfRecords (fetch_all_brfss_data env.pages none))).2 = Except.ok n) := by
  unfold main
  have hie : (fetch_all_brfss_data env.pages none).isEmpty = false := by
    simpa [List.isEmpty_iff] using hne
  simp only [hie, Bool.false_eq_true, if_false, hv, Bool.not_true]
  cases hl : (load_to_bigquery env.client
      (dfOfRecords (fetch_all_brfss_data env.pages none))).2 with
  | error e => simp [hl]
  | ok n => simp [hl]

theorem main_exit_zero_or_one (env : Env) :
    (main env).1 = 0 ∨ (main env).1 = 1 := by
  unfold main
  dsimp only
  split
  · simp
  · split
    · simp
    · split <;> simp

/-- C5: for every Dataset passing the row-count and zero-column gates, a
column whose null percentage exceeds MAX_NULL_PERCENTAGE is recorded only
as a warning, never a failure: validate_null_checks never raises (its
error slot is none, and a high-null column only makes its logged warning
block non-empty), validate_data still returns passed = true, and the
driver, given any run whose extracted Dataset is this one, goes on to
invoke the load step. -/
theorem high_nulls_warn_only (df : DataFrame)
    (h1 : MIN_ROW_COUNT ≤ df.rows.length) (h2 : df.columns ≠ []) :
    (validate_null_checks df).error = none ∧
    (validate_data df).1 = true ∧
    (∀ c ∈ df.columns, MAX_NULL_PERCENTAGE < nullPercentage df c →
      (validate_null_checks df).logWarnings ≠ []) ∧
    (∀ env : Env, fetch_all_brfss_data env.pages none ≠ [] →
      dfOfRecords (fetch_all_brfss_data env.pages none) = df →
      (main env).2 = true) := by
  refine ⟨validate_null_checks_error_none df, by rw [validate_data_pass df h1 h2], ?_, ?_⟩
  · intro c hc hgt
    have hmem : c ∈ df.columns.filter (fun column =>
        decide (MAX_NULL_PERCENTAGE < nullPercentage df column)) := by
      simp [List.mem_filter, hc, hgt]
    have hcf : critical_failures df ≠ [] := by
      unfold critical_failures
      intro hmap
      rw [List.map_eq_nil_iff] at hmap
      rw [hmap] at hmem
      simp at hmem
    simp [validate_null_checks, hcf]
  · intro env hne hdf
    exact (main_load_invoked env hne (by rw [hdf, validate_data_pass df h1 h2])).1

/-- A concrete Dataset: 100 rows, a "year" column with no nulls and a
"data_value" column that is entirely null. -/
def exDF5 : DataFrame := ⟨["year", "data_value"], List.replicate 100 [some "2020", none]⟩

/-- C5 witness: the theorem at a Dataset whose "data_value" column is
100% null. -/
theorem high_nulls_warn_only_witness :
    (validate_data exDF5).1 = true ∧ (validate_null_checks exDF5).error = none :=
  ⟨(high_nulls_warn_only exDF5 (by decide) (by decide)).2.1,
   (high_nulls_warn_only exDF5 (by decide) (by decide)).1⟩

/-- C6: for every non-empty Dataset reaching the null-density check, the
null report has one row per column, in column order, carrying the column
name, its null count and its null percentage (nullCount / rowCount) * 100
rounded to 2 decimals; the logged report is a permutation of those rows
sorted in descending order of (rounded) null percentage; and each
column's null count never exceeds the row count. -/
theorem null_report_sorted_desc (df : DataFrame) (hne : 0 < df.rows.length) :
    (null_report df).map NullReportRow.column = df.columns ∧
    (∀ row ∈ null_report df,
      row.null_count = nullCount df row.column ∧
      row.null_percentage = pyRound2 (nullPercentage df row.column)) ∧
    (sorted_null_report df).Perm (null_report df) ∧
    (sorted_null_report df).Pairwise
      (fun a b => b.null_percentage ≤ a.null_percentage) ∧
    (∀ c, nullCount df c ≤ df.rows.length) := by
  refine ⟨?_, ?_, List.mergeSort_perm _ _, ?_, fun c => List.countP_le_length _⟩
  · simp [null_report, List.map_map]
    exact List.map_id _
  · intro row hrow
    simp only [null_report, List.mem_map] at hrow
    obtain ⟨c, hc, rfl⟩ := hrow
    exact ⟨rfl, rfl⟩
  · have h := @List.sorted_mergeSort NullReportRow
        (fun a b => decide (b.null_percentage ≤ a.null_percentage))
        (fun a b c hab hbc => by
          simp only [decide_eq_true_eq] at hab hbc ⊢
          exact le_trans hbc hab)
        (fun a b => by
          simp only [Bool.or_eq_true, decide_eq_true_eq]
          exact le_total _ _)
        (null_report df)
    exact h.imp (fun hab => of_decide_eq_true hab)

/-- A concrete Dataset: one row, columns "a" and "b", with "b" null. -/
def exDF6 : DataFrame := ⟨["a", "b"], [[some "x", none]]⟩

/-- C6 witness: the theorem at a one-row two-column Dataset. -/
theorem null_report_sorted_desc_witness :
    (null_report exDF6).map NullReportRow.column = exDF6.columns ∧
    nullCount exDF6 "b" ≤ exDF6.rows.length :=
  ⟨(null_report_sorted_desc exDF6 (by decide)).1,
   (null_report_sorted_desc exDF6 (by decide)).2.2.2.2 "b"⟩

/-- C7: the pipeline driver exits with status 0 exactly when every stage
fully succeeds (non-empty extraction, validation passed, load returned a
row count), its exit status is always 0 or 1, and when extraction returns
zero records it exits with status 1 without invoking the load step. -/
theorem main_exit_codes (env : Env) :
    ((main env).1 = 0 ↔
      (fetch_all_brfss_data env.pages none ≠ [] ∧
       (validate_data (dfOfRecords (fetch_all_brfss_data env.pages none))).1 = true ∧
       ∃ n, (load_to_bigquery env.client
              (dfOfRecords (fetch_all_brfss_data env.pages none))).2 = Except.ok n)) ∧
    ((main env).1 = 0 ∨ (main env).1 = 1) ∧
    (fetch_all_brfss_data env.pages none = [] → main env = (1, false)) := by
  refine ⟨?_, main_exit_zero_or_one env, fun h => main_empty env h⟩
  by_cases hemp : fetch_all_brfss_data env.pages none = []
  · rw [main_empty env hemp]
    simp [hemp]
  · by_cases hv : (validate_data (dfOfRecords (fetch_all_brfss_data env.pages none))).1 = true
    · rw [(main_load_invoked env hemp hv).2]
      constructor
      · intro hex
        exact ⟨hemp, hv, hex⟩
      · intro hh
        exact hh.2.2
    · have hv' : (validate_data (dfOfRecords (fetch_all_brfss_data env.pages none))).1 = false :=
        Bool.eq_false_iff.mpr hv
      rw [main_invalid env hemp hv']
      simp [hv']

/-- A concrete warehouse client whose calls all succeed. -/
def exClient : BQClient := ⟨Except.ok (), Except.ok (), Except.ok (), 0⟩

/-- C7 witness: the theorem at a run whose source answers no pages. -/
theorem main_exit_codes_witness : main ⟨[], exClient⟩ = (1, false) :=
  (main_exit_codes ⟨[], exClient⟩).2.2 rfl

/-- C8: in the loader's namespace-ensure step, a failure of the
dataset-existence probe is treated the same as the dataset being absent:
whenever `client.get_dataset` raises, dataset creation is attempted —
both in the ensure step in isolation and in any full load_to_bigquery
call — so the ensure step stays idempotent even when the probe itself
errors. -/
theorem ensure_attempts_create_on_probe_error (client : BQClient) (e : String)
    (h : client.get_dataset = Except.error e) :
    (ensureDataset client).1 = true ∧
    (ensureDataset client).2 = client.create_dataset ∧
    (∀ df : DataFrame, (load_to_bigquery client df).1 = true) := by
  have he : ensureDataset client = (true, client.create_dataset) := by
    unfold ensureDataset
    rw [h]
  refine ⟨by rw [he], by rw [he], ?_⟩
  intro df
  unfold load_to_bigquery
  rw [he]
  cases hc : client.create_dataset with
  | error e2 => simp [hc]
  | ok u => cases hl : client.load_job <;> simp [hc, hl]

/-- A concrete warehouse client whose existence probe raises. -/
def exClientProbeFail : BQClient := ⟨Except.error "probe down", Except.ok (), Except.ok (), 5⟩

/-- C8 witness: the theorem at a client whose probe raises. -/
theorem ensure_attempts_create_on_probe_error_witness :
    (ensureDataset exClientProbeFail).1 = true :=
  (ensure_attempts_create_on_probe_error exClientProbeFail "probe down" rfl).1

end Ingest
